import Mathlib

/-!
Verification of the Scientific-RAG orchestration layer.

Shallow embedding of `src/main.py` (a Streamlit retrieval-augmented QA app).
Pure string manipulation (prompt assembly) is embedded directly; the stateful
parts (library storage on disk, the `st.cache_resource` cache, the render
stream produced by `st.*` calls) are embedded as explicit state passing.
External collaborators that are not part of this repository (the `llmware`
library lifecycle and semantic query, the Groq chat API) are modelled from the
specification's contracts for them; each such definition is marked
`Modelled from the spec:` in its doc comment.
-/

namespace SciRAG

/-! ## Configuration constants (src/main.py lines 10-13) -/

def LIBRARY_NAME : String := "scientific_papers_lib"

def RESEARCH_PAPERS_PATH : String := "./research_papers"

def EMBEDDING_MODEL : String := "jinaai/jina-embeddings-v2-small-en"

def LLM_MODEL : String := "llama-3.3-70b-versatile"

/-! ## Python truthiness

`if not xs` on a Python list is true exactly when the list is empty;
`if not s` on a string is true exactly when the string is empty;
`if not v` on `os.environ.get(...)` is true when the variable is unset
(`None`) or set to the empty string. -/

def pyTruthyList {α : Type} (l : List α) : Bool := !l.isEmpty

def pyTruthyStr (s : String) : Bool := s != ""

def pyTruthyOptStr : Option String → Bool
  | none => false
  | some s => s != ""

/-! ## Render stream

Each `st.info` / `st.write` / `st.success` / `st.warning` / `st.error` /
`st.markdown` / `st.subheader` / `st.spinner` / `st.balloons` call appends
one event to the render stream of the current script run. -/

inductive Render where
  | info (s : String)
  | write (s : String)
  | success (s : String)
  | warning (s : String)
  | error (s : String)
  | spinner (s : String)
  | subheader (s : String)
  | markdown (s : String)
  | balloons
deriving Repr, DecidableEq

/-! ## Documents, chunks and the persistent library store -/

/-- A source document in the corpus folder: filename and textual content. -/
structure Document where
  name : String
  content : String
deriving Repr, DecidableEq

/-- A chunk persisted inside a built collection: its text, its embedding
vector (empty until the embedding step runs), and source metadata. -/
structure StoredChunk where
  text : String
  vec : List Int
  meta : String
deriving Repr, DecidableEq

/-- Chunking parameters passed to `add_files` (src/main.py line 49). -/
structure ChunkParams where
  chunk_size : Nat
  max_chunk_size : Nat
  smart_chunking : Nat
deriving Repr, DecidableEq

def chunkParamsUsed : ChunkParams := ⟨400, 600, 1⟩

/-- Modelled from the spec: the embedding model is an external collaborator
(non-goal, §1); the spec requires only that it is a deterministic function
from text to a fixed-length numeric vector (§3 Chunk, glossary Embedding).
Any deterministic computable function is a faithful model; we use the
character codes. -/
def embed (s : String) : List Int :=
  s.toList.map (fun c => Int.ofNat c.toNat)

/-- Modelled from the spec: the similarity metric is implementation-defined
(§4.3, "e.g. cosine"); we model it as a dot product over the stored vectors. -/
def similarity (u v : List Int) : Int :=
  (u.zip v).foldl (fun acc p => acc + p.1 * p.2) 0

/-- Modelled from the spec: splitting a text into bounded spans (§4.2 step 3).
Chunk boundaries are a deterministic function of the parameters and the
content (§3 Chunk); we model a fixed-width split honouring a hard maximum. -/
def splitChunks (maxSize : Nat) (s : List Char) : List String :=
  match s with
  | [] => []
  | c :: cs => String.mk (c :: cs.take maxSize) :: splitChunks maxSize (cs.drop maxSize)
termination_by s.length
decreasing_by
  simp only [List.length_drop, List.length_cons]
  omega

/-- Modelled from the spec: parse one document into text chunks bounded by
the chunking parameters (§4.2 step 3). -/
def chunkDocument (params : ChunkParams) (d : Document) : List String :=
  splitChunks params.max_chunk_size d.content.toList

/-- The persistent state of one built collection (spec §3 Collection):
name, stored chunks, and the embedding-model identifier once installed. -/
structure BuiltLibrary where
  name : String
  chunks : List StoredChunk
  embedding_model : Option String
deriving Repr, DecidableEq

/-- The collection-storage root (`~/llmware/library`): a map from collection
name to the on-disk state of that collection, `none` when no directory of
that name exists. -/
def Storage : Type := String → Option BuiltLibrary

def emptyStorage : Storage := fun _ => none

/-- Modelled from the spec: `Library().create_new_library(name)` creates a
fresh empty collection (§4.2 step 2). -/
def create_new_library (name : String) : BuiltLibrary :=
  ⟨name, [], none⟩

/-- Modelled from the spec: `library.add_files(...)` parses every file in the
source folder into chunks and persists them with source metadata
(§4.2 step 3, step 5). -/
def add_files (lib : BuiltLibrary) (corpus : List Document) (params : ChunkParams) :
    BuiltLibrary :=
  { lib with
    chunks := lib.chunks ++
      corpus.flatMap (fun d => (chunkDocument params d).map (fun t => ⟨t, [], d.name⟩)) }

/-- Modelled from the spec: `library.install_new_embedding(...)` computes an
embedding vector per chunk with the configured model (§4.2 step 4). -/
def install_new_embedding (model : String) (lib : BuiltLibrary) : BuiltLibrary :=
  { lib with
    chunks := lib.chunks.map (fun c => { c with vec := embed c.text }),
    embedding_model := some model }

/-- Embedding of `process_and_embed_files` (src/main.py lines 34-57), acting
on the collection storage.  Lines 42-44: delete the collection directory if
it exists; line 46: create a fresh library; line 49: add files; line 52:
install embeddings.  The `st.rerun()` on line 57 ends the script run and
does not touch storage. -/
def process_and_embed_files (library_name : String) (corpus : List Document)
    (storage : Storage) : Storage :=
  let storage1 : Storage :=
    if (storage library_name).isSome then
      fun n => if n = library_name then none else storage n
    else storage
  let lib := create_new_library library_name
  let lib := add_files lib corpus chunkParamsUsed
  let lib := install_new_embedding EMBEDDING_MODEL lib
  fun n => if n = library_name then some lib else storage1 n

/-- The render stream emitted by `process_and_embed_files` on the success
path (src/main.py lines 39, 48, 51, 54-55). -/
def buildRenders (library_name folder_path : String) : List Render :=
  [Render.info ("Creating a new library: \x27" ++ library_name ++ "\x27. This may take a moment..."),
   Render.write ("Parsing and chunking files from: " ++ folder_path ++ "..."),
   Render.write ("Creating embeddings with model: " ++ EMBEDDING_MODEL ++ "..."),
   Render.success "Library setup and embedding complete.",
   Render.balloons]

/-! ## Retrieval (src/main.py lines 60-66) -/

/-- One ranked retrieval result: chunk text, similarity score, source
metadata (spec §4.3 contract). -/
structure QueryResult where
  text : String
  score : Int
  meta : String
deriving Repr, DecidableEq

/-- Descending-similarity order on query results: `a` comes before `b`
when `a`'s score is at least `b`'s. -/
def scoreRel (a b : QueryResult) : Prop := b.score ≤ a.score

instance : DecidableRel scoreRel :=
  fun a b => inferInstanceAs (Decidable (b.score ≤ a.score))

instance : IsTotal QueryResult scoreRel :=
  ⟨fun a b => le_total b.score a.score⟩

instance : IsTrans QueryResult scoreRel :=
  ⟨fun _ _ _ h1 h2 => le_trans h2 h1⟩

/-- Modelled from the spec: `Query(library).semantic_query(text, result_count)`
from `llmware` (§4.3) — embed the query text with the same model used at
ingestion, score every stored chunk vector, and return the top
`result_count` by descending similarity. -/
def semantic_query (lib : BuiltLibrary) (user_query : String) (result_count : Nat) :
    List QueryResult :=
  let scored := lib.chunks.map
    (fun c => QueryResult.mk c.text (similarity (embed user_query) c.vec) c.meta)
  (scored.insertionSort scoreRel).take result_count

/-- Embedding of `semantic_search` (src/main.py lines 60-66): the default
`result_count` is 20; the `st.spinner` context only renders status. -/
def semantic_search (library : BuiltLibrary) (user_query : String)
    (result_count : Nat := 20) : List QueryResult :=
  semantic_query library user_query result_count

/-! ## Answer synthesis (src/main.py lines 69-88) -/

/-- Outcome of the external `client.chat.completions.create` call: either a
generated message content, or an exception raised by the transport/API. -/
inductive ApiOutcome where
  | ok (content : String)
  | exn (e : String)
deriving Repr, DecidableEq

/-- The environment and the behaviour of the external Groq service:
`env` models `os.environ`; `api prompt model` is the outcome the external
endpoint produces for a given request. -/
structure GroqEnv where
  env : String → Option String
  api : String → String → ApiOutcome

/-- The observable result of `ask_groq`: the returned string, the list of
requests actually issued to the external API, and the render stream. -/
structure AskResult where
  answer : String
  apiCalls : List (String × String)
  renders : List Render
deriving Repr, DecidableEq

/-- Embedding of `ask_groq` (src/main.py lines 69-88).  Line 73 reads the
`GROQ` environment variable; lines 74-75 return the fixed error string when
it is falsy (unset or empty) without constructing a client or issuing any
request; lines 79-85 issue the request inside `try` and return the content;
lines 86-88 catch any exception from the call, render an error and return
the empty string.  The function is total: no exception propagates. -/
def ask_groq (g : GroqEnv) (user_prompt : String) (model : String) : AskResult :=
  let api_key := g.env "GROQ"
  if !pyTruthyOptStr api_key then
    ⟨"Error: GROQ environment variable not set. Please add it to your .env file.", [], []⟩
  else
    match g.api user_prompt model with
    | ApiOutcome.ok content =>
        ⟨content, [(user_prompt, model)],
         [Render.spinner ("Calling Groq\x27s LPU to synthesize the answer...")]⟩
    | ApiOutcome.exn e =>
        ⟨"", [(user_prompt, model)],
         [Render.spinner ("Calling Groq\x27s LPU to synthesize the answer..."),
          Render.error ("Error during Groq API call: " ++ e)]⟩

/-! ## Prompt assembly (src/main.py lines 151-165) -/

/-- The literal text of `prompt_template` before the `context` field. -/
def prompt_template_pre : String :=
  "You are a world-renowned scientific genius. Your intellect is unparalleled.\nBased *only* on the provided context from research papers, provide a clear, concise, and accurate answer to the query.\nIf the context does not contain the answer, state that clearly.\nFormat your response in neatly structured markdown.\n\nContext:\n"

/-- The literal text of `prompt_template` between the `context` and `query`
fields. -/
def prompt_template_mid : String := "\n\nQuery:\n"

/-- The literal text of `prompt_template` after the `query` field. -/
def prompt_template_post : String := "\n\nReply:\n"

/-- The full `prompt_template` string (src/main.py lines 151-163), with its
two replacement fields written literally. -/
def prompt_template : String :=
  prompt_template_pre ++ "{context}" ++ prompt_template_mid ++ "{query}" ++ prompt_template_post

/-- `prompt_template.format(context=ctx, query=q)`: Python `str.format`
scans the template once left to right and substitutes each replacement
field with the corresponding value; the values themselves are not
re-scanned.  On this fixed two-field template that is exactly the
concatenation below. -/
def formatPromptTemplate (ctx q : String) : String :=
  prompt_template_pre ++ ctx ++ prompt_template_mid ++ q ++ prompt_template_post

/-- The separator joining the context chunks (src/main.py line 164). -/
def contextSeparator : String := "\n---\n"

/-- Embedding of the `context` expression (src/main.py line 164):
`"\n---\n".join([result[\x27text\x27] for result in query_results[:7]])`. -/
def contextOf (query_results : List QueryResult) : String :=
  String.intercalate contextSeparator ((query_results.take 7).map QueryResult.text)

/-- Embedding of `final_prompt` (src/main.py line 165). -/
def final_prompt (query_results : List QueryResult) (user_query : String) : String :=
  formatPromptTemplate (contextOf query_results) user_query

/-- The claim's own description of the context, written from the spec's
words rather than the source: the texts of the first `min(7, length)`
results, in rank order. -/
def specFirstMinTexts (query_results : List QueryResult) : List String :=
  (List.range (min 7 query_results.length)).filterMap
    (fun i => (query_results[i]?).map QueryResult.text)

/-! ## Query dispatch (src/main.py lines 140-171) -/

/-- Observable outcome of one press of the "Get Answer" button: the render
stream and the requests issued to the external text-generation API. -/
structure DispatchOut where
  renders : List Render
  apiCalls : List (String × String)
deriving Repr, DecidableEq

/-- The message rendered when retrieval returns no results
(src/main.py line 148). -/
def noInfoMsg : String :=
  "Could not find any relevant information in the provided documents for your query."

/-- Embedding of the "Get Answer" handler (src/main.py lines 140-171):
warn on an empty query (lines 141-142); otherwise retrieve with
`semantic_search` at its default count (line 145); if the results are empty
render the no-information error and stop (lines 147-148); otherwise
assemble `final_prompt` and call `ask_groq` (lines 149-171). -/
def getAnswerHandler (g : GroqEnv) (library : BuiltLibrary) (user_query : String) :
    DispatchOut :=
  if !pyTruthyStr user_query then
    ⟨[Render.warning "Please enter a question."], []⟩
  else
    let query_results := semantic_search library user_query
    if !pyTruthyList query_results then
      ⟨[Render.error noInfoMsg], []⟩
    else
      let prompt := final_prompt query_results user_query
      let ar := ask_groq g prompt LLM_MODEL
      ⟨ar.renders ++ [Render.subheader "💡 Answer", Render.markdown ar.answer], ar.apiCalls⟩

/-! ## Corpus folder and the "Process & Embed Documents" button
(src/main.py lines 123-128) -/

/-- The corpus folder on disk: `none` when `./research_papers` does not
exist, `some files` when it exists and holds the given documents. -/
structure FS where
  corpusDir : Option (List Document)
deriving Repr, DecidableEq

/-- The error message of the `FileNotFoundError` that `os.listdir` raises
when the directory does not exist. -/
def fileNotFoundMsg : String :=
  "FileNotFoundError: [Errno 2] No such file or directory: \x27./research_papers\x27"

/-- Embedding of `os.listdir(RESEARCH_PAPERS_PATH)` (src/main.py line 124):
returns the directory entries, or raises `FileNotFoundError` when the
folder does not exist. -/
def listdirCorpus (fs : FS) : Except String (List Document) :=
  match fs.corpusDir with
  | none => Except.error fileNotFoundMsg
  | some files => Except.ok files

/-- The warning rendered when the corpus folder is empty
(src/main.py line 125). -/
def noFilesMsg : String :=
  "No files found in the research_papers folder. Please upload documents first."

/-- Observable outcome of the button handler: resulting storage and render
stream. -/
structure HandlerOut where
  storage : Storage
  renders : List Render

/-- Embedding of the "Process & Embed Documents" button handler
(src/main.py lines 123-128): list the corpus folder (the listing itself may
raise); if the listing is empty, warn and change nothing; otherwise run
`process_and_embed_files`. -/
def processButtonHandler (fs : FS) (storage : Storage) : Except String HandlerOut :=
  match listdirCorpus fs with
  | Except.error e => Except.error e
  | Except.ok files =>
      if !pyTruthyList files then
        Except.ok ⟨storage, [Render.warning noFilesMsg]⟩
      else
        Except.ok ⟨process_and_embed_files LIBRARY_NAME files storage,
                   buildRenders LIBRARY_NAME RESEARCH_PAPERS_PATH⟩

/-! ## Library loading and the `st.cache_resource` cache
(src/main.py lines 19-31) -/

/-- The process-wide `st.cache_resource` cache, keyed by the function
argument (the collection name). -/
def Cache : Type := String → Option BuiltLibrary

def emptyCache : Cache := fun _ => none

/-- Modelled from the spec: `Library().load_library(name)` loads an existing
collection or fails with a not-found condition (§4.3, §4.5: load failure →
NoCollection). -/
def load_library (storage : Storage) (name : String) : Except String BuiltLibrary :=
  match storage name with
  | some lib => Except.ok lib
  | none => Except.error ("Library not found: " ++ name)

/-- Embedding of `setup_library` under `@st.cache_resource`
(src/main.py lines 19-31): on a cache hit the cached handle is returned and
the body does not run; on a miss the body loads the library from storage
and the result is cached.  The returned `Bool` records whether the body
executed.  Nothing in the source ever clears this cache. -/
def setup_library (cache : Cache) (storage : Storage) (library_name : String) :
    Except String (BuiltLibrary × Cache × Bool) :=
  match cache library_name with
  | some lib => Except.ok (lib, cache, false)
  | none =>
      match load_library storage library_name with
      | Except.ok lib =>
          Except.ok (lib, fun n => if n = library_name then some lib else cache n, true)
      | Except.error e => Except.error e

/-! ## Whole-script control flow (src/main.py lines 102-176)

The sidebar block (lines 102-128) runs first and is NOT inside any
`try`; the main chat interface (lines 131-171) is wrapped in the
`try`/`except` of lines 131-176.  To settle the claim about exception
propagation we embed the script parameterised by the outcome each
collaborator produces during this run (`Except.error` = the collaborator
raised). -/

/-- The outcome each collaborator call produces during one script run. -/
structure Collaborators where
  save_uploads : Except String Unit
  listdir_corpus : Except String (List Document)
  build : Except String Unit
  load : Except String BuiltLibrary
  search : Except String (List QueryResult)
  synth : Except String String

/-- The user interaction driving one script run. -/
structure Inputs where
  uploaded_files : List Document
  process_clicked : Bool
  answer_clicked : Bool
  user_query : String

/-- Embedding of the sidebar block (src/main.py lines 102-128): save any
uploaded files, then handle the "Process & Embed Documents" button.  Any
exception from a collaborator propagates out of this block uncaught. -/
def sidebarBlock (inp : Inputs) (c : Collaborators) : Except String (List Render) := do
  let r1 ← if pyTruthyList inp.uploaded_files then do
      c.save_uploads
      pure [Render.success (toString inp.uploaded_files.length ++ " file(s) uploaded successfully!")]
    else pure []
  let r2 ← if inp.process_clicked then do
      let files ← c.listdir_corpus
      if !pyTruthyList files then
        pure [Render.warning noFilesMsg]
      else do
        c.build
        pure (buildRenders LIBRARY_NAME RESEARCH_PAPERS_PATH)
    else pure []
  pure (r1 ++ r2)

/-- Embedding of the body of the top-level `try` (src/main.py lines
131-171): load the library, then handle the "Get Answer" button. -/
def mainBlockBody (inp : Inputs) (c : Collaborators) : Except String (List Render) := do
  let _library ← c.load
  if inp.answer_clicked then
    if !pyTruthyStr inp.user_query then
      pure [Render.warning "Please enter a question."]
    else do
      let query_results ← c.search
      if !pyTruthyList query_results then
        pure [Render.error noInfoMsg]
      else do
        let answer ← c.synth
        pure [Render.subheader "💡 Answer", Render.markdown answer]
  else pure []

/-- The renders of the `except` branch (src/main.py lines 173-176):
the report plus the guidance to (re)build the collection. -/
def guidanceRenders (e : String) : List Render :=
  [Render.error ("Failed to load or find the library: \x27" ++ LIBRARY_NAME ++ "\x27."),
   Render.info ("Please upload documents and click \x27Process & Embed Documents\x27 in the sidebar to create the library."),
   Render.warning ("Detailed Error: " ++ e)]

/-- Outcome of one whole script run: either the script finished and the app
is ready for the next interaction, or an exception escaped the script. -/
inductive RunOutcome where
  | finished (renders : List Render)
  | crashed (e : String)
deriving Repr, DecidableEq

/-- Embedding of the whole script (src/main.py lines 102-176): the sidebar
runs outside any handler, so an exception there escapes; the main block is
wrapped by the top-level `try`/`except`, which renders the guidance
messages on any exception. -/
def runScript (inp : Inputs) (c : Collaborators) : RunOutcome :=
  match sidebarBlock inp c with
  | Except.error e => RunOutcome.crashed e
  | Except.ok rs =>
      match mainBlockBody inp c with
      | Except.ok rs2 => RunOutcome.finished (rs ++ rs2)
      | Except.error e => RunOutcome.finished (rs ++ guidanceRenders e)

/-! ## Helper lemmas -/

/-- The first `min n (length l)` elements read off by index equal
`(l.take n).map f`. -/
theorem range_min_filterMap_eq_take_map {α β : Type} (f : α → β) :
    ∀ (n : Nat) (l : List α),
      (List.range (min n l.length)).filterMap (fun i => (l[i]?).map f) =
        (l.take n).map f
  | 0, l => by simp
  | _ + 1, [] => by simp
  | n + 1, x :: xs => by
      have ih := range_min_filterMap_eq_take_map f n xs
      have hmin : min (n + 1) (x :: xs).length = min n xs.length + 1 := by
        simp only [List.length_cons]; omega
      rw [hmin, List.range_succ_eq_map, List.filterMap_cons, List.filterMap_map]
      simp only [List.getElem?_cons_zero, Option.map_some, Function.comp_def,
        Nat.succ_eq_add_one, List.getElem?_cons_succ, List.take_succ_cons,
        List.map_cons]
      rw [ih]
      rfl

/-- Pointwise description of `process_and_embed_files`: because the old
directory is deleted and a fresh collection is created, the resulting
storage maps the built name to the library derived from the corpus alone,
and leaves every other name untouched. -/
theorem process_and_embed_files_apply (library_name : String) (corpus : List Document)
    (storage : Storage) (n : String) :
    process_and_embed_files library_name corpus storage n =
      if n = library_name then
        some (install_new_embedding EMBEDDING_MODEL
          (add_files (create_new_library library_name) corpus chunkParamsUsed))
      else storage n := by
  unfold process_and_embed_files
  by_cases h : n = library_name
  · simp [h]
  · simp only [h, if_false]
    split <;> simp [h]

/-! ## Claims -/

/-- C1: for every non-empty ranked result list and every query string, the
synthesized prompt is the fixed instruction template with the `context`
field replaced by the texts of the first `min(7, length)` results in rank
order joined by `"\n---\n"`, and the `query` field replaced by the raw
query string unchanged. -/
theorem final_prompt_is_template_substitution (query_results : List QueryResult)
    (user_query : String) (h : query_results ≠ []) :
    final_prompt query_results user_query =
      prompt_template_pre
        ++ String.intercalate contextSeparator (specFirstMinTexts query_results)
        ++ prompt_template_mid ++ user_query ++ prompt_template_post := by
  unfold final_prompt formatPromptTemplate contextOf specFirstMinTexts
  rw [range_min_filterMap_eq_take_map]

def sampleResult : QueryResult := ⟨"Water boils at 100C.", 5, "a.txt"⟩

/-- Witness for C1 at a concrete one-element result list. -/
theorem final_prompt_is_template_substitution_witness :
    [sampleResult] ≠ ([] : List QueryResult) ∧
    final_prompt [sampleResult] "boiling point" =
      prompt_template_pre
        ++ String.intercalate contextSeparator (specFirstMinTexts [sampleResult])
        ++ prompt_template_mid ++ "boiling point" ++ prompt_template_post :=
  ⟨by simp,
   final_prompt_is_template_substitution [sampleResult] "boiling point" (by simp)⟩

/-- C2: the build operation deletes any existing collection directory and
creates a fresh collection before adding files, so building twice in
succession is idempotent: the resulting storage is the same as building
once from the second corpus, and the stored collection is a function of
the second corpus alone. -/
theorem build_twice_replaces_fully (library_name : String) (c1 c2 : List Document)
    (storage : Storage) :
    (∀ n, process_and_embed_files library_name c2
            (process_and_embed_files library_name c1 storage) n
          = process_and_embed_files library_name c2 storage n)
    ∧ process_and_embed_files library_name c2 storage library_name
        = some (install_new_embedding EMBEDDING_MODEL
            (add_files (create_new_library library_name) c2 chunkParamsUsed)) := by
  constructor
  · intro n
    rw [process_and_embed_files_apply, process_and_embed_files_apply,
      process_and_embed_files_apply]
    by_cases h : n = library_name <;> simp [h]
  · rw [process_and_embed_files_apply]
    simp

/-- C3: when the `GROQ` environment variable is unset, `ask_groq` returns
the fixed descriptive error string, issues no request to the external API,
and (being a total function) raises nothing. -/
theorem ask_groq_missing_credential (g : GroqEnv) (user_prompt model : String)
    (h : g.env "GROQ" = none) :
    ask_groq g user_prompt model =
      AskResult.mk
        "Error: GROQ environment variable not set. Please add it to your .env file."
        [] [] := by
  simp [ask_groq, h, pyTruthyOptStr]

def noKeyEnv : GroqEnv :=
  ⟨fun _ => none, fun _ _ => ApiOutcome.ok "unused"⟩

/-- Witness for C3 at a concrete environment with no `GROQ` variable. -/
theorem ask_groq_missing_credential_witness :
    ask_groq noKeyEnv "any prompt" LLM_MODEL =
      AskResult.mk
        "Error: GROQ environment variable not set. Please add it to your .env file."
        [] [] :=
  ask_groq_missing_credential noKeyEnv "any prompt" LLM_MODEL rfl

/-- C4: with the credential present (the code's guard: set and non-empty),
if the external text-generation call raises, `ask_groq` catches it, renders
the error report, and returns the empty string; the function is total, so
no exception reaches the caller. -/
theorem ask_groq_api_failure_returns_empty (g : GroqEnv) (user_prompt model e : String)
    (hkey : pyTruthyOptStr (g.env "GROQ") = true)
    (hapi : g.api user_prompt model = ApiOutcome.exn e) :
    (ask_groq g user_prompt model).answer = "" ∧
    Render.error ("Error during Groq API call: " ++ e)
      ∈ (ask_groq g user_prompt model).renders := by
  simp [ask_groq, hkey, hapi]

def failingApiEnv : GroqEnv :=
  ⟨fun v => if v = "GROQ" then some "gsk-test-key" else none,
   fun _ _ => ApiOutcome.exn "APIConnectionError"⟩

/-- Witness for C4 at a concrete environment whose API call raises. -/
theorem ask_groq_api_failure_returns_empty_witness :
    (ask_groq failingApiEnv "p" LLM_MODEL).answer = "" ∧
    Render.error ("Error during Groq API call: " ++ "APIConnectionError")
      ∈ (ask_groq failingApiEnv "p" LLM_MODEL).renders :=
  ask_groq_api_failure_returns_empty failingApiEnv "p" LLM_MODEL "APIConnectionError"
    rfl rfl

def crashInputs : Inputs := ⟨[], true, false, ""⟩

def crashCollabs : Collaborators :=
  ⟨Except.ok (), Except.ok [⟨"a.txt", "water boils at 100C"⟩],
   Except.error "DatabaseError: vector db unavailable",
   Except.ok (create_new_library LIBRARY_NAME), Except.ok [], Except.ok ""⟩

/-- C5 counterexample: the sidebar runs before and outside the top-level
`try`, so when the build trigger's collaborator raises, the exception
escapes the script uncaught — it is not reported with rebuild guidance and
the run crashes, refuting the claim that any collaborator exception during
any interaction is caught at the top level. -/
theorem build_exception_escapes : runScript crashInputs crashCollabs =
    RunOutcome.crashed "DatabaseError: vector db unavailable" := by
  rfl

/-- C5 amended: only the main chat interface (library load and query
dispatch) is wrapped by the top-level handler: when the sidebar block
completes normally and the main block raises, the script finishes and
renders the guidance to (re)build the collection; but an exception raised
in the sidebar (upload saving, directory listing, build) escapes the
script uncaught. -/
theorem top_level_catch_covers_main_block_only (inp : Inputs) (c : Collaborators) :
    (∀ rs e, sidebarBlock inp c = Except.ok rs →
        mainBlockBody inp c = Except.error e →
        runScript inp c = RunOutcome.finished (rs ++ guidanceRenders e))
    ∧ (∀ e, sidebarBlock inp c = Except.error e →
        runScript inp c = RunOutcome.crashed e) := by
  constructor
  · intro rs e hs hm
    simp [runScript, hs, hm]
  · intro e hs
    simp [runScript, hs]

def idleInputs : Inputs := ⟨[], false, false, ""⟩

def noLibCollabs : Collaborators :=
  ⟨Except.ok (), Except.ok [], Except.ok (),
   Except.error "Library not found: scientific_papers_lib",
   Except.ok [], Except.ok ""⟩

/-- Witness for the amended C5: a run where the sidebar is idle and the
library load raises finishes with the guidance renders. -/
theorem top_level_catch_covers_main_block_only_witness :
    runScript idleInputs noLibCollabs =
      RunOutcome.finished
        ([] ++ guidanceRenders "Library not found: scientific_papers_lib") :=
  (top_level_catch_covers_main_block_only idleInputs noLibCollabs).1 []
    "Library not found: scientific_papers_lib" rfl rfl

/-- C6: when the query is non-empty but retrieval returns no results, the
handler renders the no-relevant-information message and stops: no prompt is
assembled, `ask_groq` is never invoked, and no request reaches the external
text-generation API (the request list is empty). -/
theorem empty_retrieval_short_circuits (g : GroqEnv) (library : BuiltLibrary)
    (user_query : String) (hq : pyTruthyStr user_query = true)
    (h : semantic_search library user_query = []) :
    getAnswerHandler g library user_query =
      DispatchOut.mk [Render.error noInfoMsg] [] := by
  simp [getAnswerHandler, hq, h, pyTruthyList]

def emptyLib : BuiltLibrary := ⟨LIBRARY_NAME, [], some EMBEDDING_MODEL⟩

/-- Witness for C6: a collection with no chunks retrieves nothing and the
dispatch issues no API request. -/
theorem empty_retrieval_short_circuits_witness :
    getAnswerHandler noKeyEnv emptyLib "boiling point" =
      DispatchOut.mk [Render.error noInfoMsg] [] :=
  empty_retrieval_short_circuits noKeyEnv emptyLib "boiling point" rfl rfl

/-- C7: `semantic_search` defaults to requesting 20 results, and the
returned sequence has at most 20 elements and is sorted by descending
similarity score. -/
theorem semantic_search_default_topn_sorted (library : BuiltLibrary)
    (user_query : String) :
    semantic_search library user_query = semantic_query library user_query 20
    ∧ (semantic_search library user_query).length ≤ 20
    ∧ (semantic_search library user_query).Sorted scoreRel := by
  refine ⟨rfl, ?_, ?_⟩
  · simp only [semantic_search, semantic_query]
    exact List.length_take_le 20 _
  · simp only [semantic_search, semantic_query, List.Sorted]
    exact List.Pairwise.sublist (List.take_sublist 20 _)
      (List.sorted_insertionSort scoreRel _)

/-- C8: when the corpus folder exists and is empty, the build button emits
the user-facing warning and nothing else: the storage is returned
unchanged (pointer-identical, so no collection is created and any name
that had no collection still has none — the controller stays in
NoCollection). -/
theorem empty_corpus_warns_state_unchanged (fs : FS) (storage : Storage)
    (h : fs.corpusDir = some []) :
    processButtonHandler fs storage =
      Except.ok (HandlerOut.mk storage [Render.warning noFilesMsg])
    ∧ (storage LIBRARY_NAME = none →
        ∀ out, processButtonHandler fs storage = Except.ok out →
          out.storage LIBRARY_NAME = none) := by
  have hmain : processButtonHandler fs storage =
      Except.ok (HandlerOut.mk storage [Render.warning noFilesMsg]) := by
    simp [processButtonHandler, listdirCorpus, h, pyTruthyList]
  refine ⟨hmain, fun hn out hout => ?_⟩
  rw [hmain] at hout
  cases hout
  exact hn

/-- Witness for C8 at a concrete empty folder over empty storage. -/
theorem empty_corpus_warns_state_unchanged_witness :
    processButtonHandler ⟨some []⟩ emptyStorage =
      Except.ok (HandlerOut.mk emptyStorage [Render.warning noFilesMsg]) :=
  (empty_corpus_warns_state_unchanged ⟨some []⟩ emptyStorage rfl).1

/-- C9: the cached loader executes its body at most once per name: after
any successful `setup_library` call, every later call for the same name —
even after a full rebuild over arbitrary storage — returns the same cached
handle, does not execute the loading body, and leaves the cache unchanged;
nothing invalidates the cache. -/
theorem setup_library_cache_never_invalidated (cache : Cache) (storage : Storage)
    (library_name : String) (lib : BuiltLibrary) (cache2 : Cache) (b : Bool)
    (h : setup_library cache storage library_name = Except.ok (lib, cache2, b)) :
    ∀ (corpus : List Document) (storage2 : Storage),
      setup_library cache2 (process_and_embed_files library_name corpus storage2)
        library_name = Except.ok (lib, cache2, false) := by
  have hc : cache2 library_name = some lib := by
    unfold setup_library at h
    cases hx : cache library_name with
    | some l =>
        rw [hx] at h
        simp only [Except.ok.injEq, Prod.mk.injEq] at h
        obtain ⟨h1, h2, _⟩ := h
        rw [← h2, hx, h1]
    | none =>
        rw [hx] at h
        cases hl : load_library storage library_name with
        | ok l =>
            rw [hl] at h
            simp only [Except.ok.injEq, Prod.mk.injEq] at h
            obtain ⟨h1, h2, _⟩ := h
            rw [← h2]
            simp [h1]
        | error e =>
            rw [hl] at h
            exact absurd h (by simp)
  intro corpus storage2
  unfold setup_library
  rw [hc]

def seededLib : BuiltLibrary := ⟨LIBRARY_NAME, [], some EMBEDDING_MODEL⟩

def seededStorage : Storage :=
  fun n => if n = LIBRARY_NAME then some seededLib else none

def cacheAfterLoad : Cache :=
  fun n => if n = LIBRARY_NAME then some seededLib else emptyCache n

/-- Witness for C9: after one successful load, a rebuild from a fresh
corpus does not make the next load re-resolve — it still returns the
pre-rebuild handle without executing the body. -/
theorem setup_library_cache_never_invalidated_witness :
    setup_library cacheAfterLoad
      (process_and_embed_files LIBRARY_NAME [⟨"b.txt", "a new corpus"⟩] seededStorage)
      LIBRARY_NAME = Except.ok (seededLib, cacheAfterLoad, false) :=
  setup_library_cache_never_invalidated emptyCache seededStorage LIBRARY_NAME
    seededLib cacheAfterLoad true rfl [⟨"b.txt", "a new corpus"⟩] seededStorage

/-- C10: when the corpus folder does not exist, the directory-listing guard
itself raises the filesystem error — no warning and no build — and the
empty-folder warning can only be emitted when the folder exists (and is
empty). -/
theorem listdir_guard_requires_folder (fs : FS) (storage : Storage) :
    (fs.corpusDir = none →
      processButtonHandler fs storage = Except.error fileNotFoundMsg)
    ∧ (∀ out, processButtonHandler fs storage = Except.ok out →
        Render.warning noFilesMsg ∈ out.renders → fs.corpusDir = some []) := by
  constructor
  · intro h
    simp [processButtonHandler, listdirCorpus, h]
  · intro out hok hmem
    cases hfs : fs.corpusDir with
    | none => simp [processButtonHandler, listdirCorpus, hfs] at hok
    | some files =>
        cases files with
        | nil => rfl
        | cons d ds =>
            simp [processButtonHandler, listdirCorpus, hfs, pyTruthyList] at hok
            subst hok
            simp [buildRenders] at hmem

/-- Witness for C10: with no corpus folder on disk, the build click fails
with the filesystem error. -/
theorem listdir_guard_requires_folder_witness :
    processButtonHandler ⟨none⟩ emptyStorage = Except.error fileNotFoundMsg :=
  (listdir_guard_requires_folder ⟨none⟩ emptyStorage).1 rfl

end SciRAG
